import Mathlib

/-!
Shallow embedding of the request-routing / dispatch core of the repository
(`multi_node/model_runtime_manager.py`, `multi_node/benchmarks/benchmark_utils.py`,
`multi_node/benchmarks/multi_exp_configs/multi_exp_utils.py`).

Modelling conventions:
* Python floats appearing as exact quantities (timings, token counts) are `ℚ`;
  results of NumPy reductions that can be NaN are a dedicated `PyFloat`.
* Python exceptions are `PyErr`; a fallible step returns `Except PyErr _` or
  an `Option PyErr` side channel next to the mutated object.
* Python dicts (with their unique keys) are association lists with unique keys;
  `dict.pop` is modelled by filtering the key out, which agrees with Python's
  single-entry removal on the unique-key representation.
* External collaborators (the tokenizer, the router policy, the network, the
  random sampler, float square root inside `np.std`) are parameters of the
  embedding, universally quantified in the theorems.
-/

namespace Preble

attribute [local semireducible] Rat.mul Rat.inv Rat.sub Rat.add

/-- Python exception kinds relevant to the modelled code paths. -/
inductive PyErr where
  | zeroDivision
  | valueError
  | indexError
  | typeError
  | connectionError
  deriving DecidableEq, Repr

/-- A Python float result that may be NaN (as produced by NumPy reductions on
empty data); every non-NaN value is modelled exactly as a rational. -/
inductive PyFloat where
  | nan
  | val (q : ℚ)
  deriving DecidableEq, Repr

/-- Python `/` on floats: raises `ZeroDivisionError` when the divisor is zero
(unlike IEEE semantics, Python raises). -/
def pydiv (a b : ℚ) : Except PyErr ℚ :=
  if b = 0 then .error .zeroDivision else .ok (a / b)

/-- Values stored in a `sampling_params` dict. -/
inductive PyVal where
  | str (s : String)
  | num (q : ℚ)
  deriving DecidableEq, Repr

/-- A Python dict with string keys (association list, unique keys). -/
abbrev PyDict := List (String × PyVal)

/-- Lookup in a dict. -/
def dictLookup (k : String) : PyDict → Option PyVal
  | [] => none
  | (k', v) :: rest => if k' = k then some v else dictLookup k rest

/-- Removal of a key, the mutation performed by Python's `dict.pop(k, default)`
(on the unique-key representation, filtering equals removing the one entry). -/
def dictRemove (k : String) (d : PyDict) : PyDict :=
  d.filter (fun p => !(p.1 == k))

/-- Python `d.pop(k, default)`: the value (or the default) together with the
dict after removal. -/
def dictPop (d : PyDict) (k : String) (dflt : PyVal) : PyVal × PyDict :=
  ((dictLookup k d).getD dflt, dictRemove k d)

/-- Python `d[k] = v`: overwrite in place if the key exists (insertion order
kept), else append. -/
def dictSet (d : PyDict) (k : String) (v : PyVal) : PyDict :=
  if (dictLookup k d).isSome then
    d.map (fun p => if p.1 == k then (k, v) else p)
  else d ++ [(k, v)]

/-! ## Runtime registry (`model_runtime_manager.py`) -/

/-- `GPUConfig.__init__`: device id, optional pre-existing URL, optional
remote-execution (SSH) flag and credentials. -/
structure GPUConfig where
  gpu_id : ℕ
  url : Option String := none
  use_ssh : Bool := false
  ssh_config : List (String × String) := []
  deriving DecidableEq, Repr

/-- The three `EndpointRuntimeInterface` variants constructed by
`load_runtimes`: `SSHRuntime`, `URLRuntime`, `ExtendedSGLangRuntime`. -/
inductive RuntimeVariant where
  | sshRuntime (model_path : String) (ssh_config : List (String × String)) (gpu : ℕ)
  | urlRuntime (url : String) (gpu : ℕ)
  | sglangRuntime (model_path : String) (gpu : ℕ)
  deriving DecidableEq, Repr

/-- Python truthiness of the optional `url` field (`elif config.url:`):
`None` and the empty string are falsy. -/
def urlTruthy : Option String → Bool
  | none => false
  | some s => s ≠ ""

/-- The body of `load_runtime` inside `ModelDetails.load_runtimes`: branch on
`config.use_ssh` first, then on the truthiness of `config.url`, else boot a
local SGLang server. -/
def load_runtime (model_path : String) (config : GPUConfig) : RuntimeVariant :=
  if config.use_ssh then
    .sshRuntime model_path config.ssh_config config.gpu_id
  else if urlTruthy config.url then
    .urlRuntime (config.url.getD "") config.gpu_id
  else
    .sglangRuntime model_path config.gpu_id

/-- `ModelDetails.load_runtimes`: build one runtime per `GPUConfig`, appending
in input order. -/
def load_runtimes (model_path : String) (gpu_configs : List GPUConfig) :
    List RuntimeVariant :=
  gpu_configs.map (load_runtime model_path)

/-- A provisioned runtime endpoint as seen by `clear_kv_cache` and
`async_send_request`: only its base URL matters for the modelled calls
(`EndpointRuntimeInterface`). -/
structure RuntimeE where
  url : String
  deriving DecidableEq, Repr

/-- `EndpointRuntimeInterface.flush_cache_url`. -/
def flush_cache_url (r : RuntimeE) : String := r.url ++ "/flush_cache"

/-- `EndpointRuntimeInterface.generate_url` (as set by `__post_init__`). -/
def generate_url (r : RuntimeE) : String := r.url ++ "/generate"

/-- `ModelDetails.clear_kv_cache`: iterate over the runtimes issuing
`requests.get(runtime.flush_cache_url)`.  The network environment is the
`reachable` predicate on URLs; a GET to an unreachable URL raises
`ConnectionError`, which nothing in the loop catches.  Returns the list of
flush URLs whose GET completed, and the propagated exception if any. -/
def clear_kv_cache (reachable : String → Bool) :
    List RuntimeE → List String × Option PyErr
  | [] => ([], none)
  | r :: rest =>
    let u := flush_cache_url r
    if reachable u then
      let res := clear_kv_cache reachable rest
      (u :: res.1, res.2)
    else
      ([], some .connectionError)

/-! ## Per-request records (`benchmarks/benchmark_utils.py`) -/

/-- `RequestFuncOutput` with the dataclass field defaults.  `output_len`,
`tpot` and `prefill_decode_ratio` default to Python `None`, hence `Option`. -/
structure RequestFuncOutput where
  generated_text : String := ""
  success : Bool := false
  request_latency : ℚ := 0
  ttft : ℚ := 0
  itl : List ℚ := []
  prompt_len : ℚ := 0
  error : String := ""
  global_time : ℚ := 0
  output_len : Option ℚ := none
  tpot : Option ℚ := none
  prefill_decode_ratio : Option ℚ := none
  send_out_time : ℚ := 0
  route_dest : Option ℕ := none
  deriving DecidableEq, Repr

/-- `RequestFuncOutput.update_metrics`, statement by statement:
1. backfill `output_len` by token-counting `generated_text` when it is `None`
   (the tokenizer is the external collaborator `tokenizer`);
2. `if self.output_len > 1`: set `tpot`; comparing `None > 1` would be a
   Python `TypeError`, and dividing by `output_len - 1` a `ZeroDivisionError`
   if it were zero (unreachable under the guard);
3. set `prefill_decode_ratio = ttft / request_latency` — a `ZeroDivisionError`
   when `request_latency = 0`.
Returns the record with every mutation performed before the first raised
exception, plus the exception (Python mutates the object in place, so earlier
assignments survive a later raise). -/
def update_metrics (tokenizer : String → ℕ) (r : RequestFuncOutput) :
    RequestFuncOutput × Option PyErr :=
  let r1 :=
    match r.output_len with
    | none => { r with output_len := some (tokenizer r.generated_text : ℚ) }
    | some _ => r
  match r1.output_len with
  | none => (r1, some .typeError)
  | some olen =>
    let step2 : RequestFuncOutput × Option PyErr :=
      if 1 < olen then
        match pydiv (r1.request_latency - r1.ttft) (olen - 1) with
        | .error e => (r1, some e)
        | .ok v => ({ r1 with tpot := some v }, none)
      else (r1, none)
    match step2 with
    | (r2, some e) => (r2, some e)
    | (r2, none) =>
      match pydiv r2.ttft r2.request_latency with
      | .error e => (r2, some e)
      | .ok v => ({ r2 with prefill_decode_ratio := some v }, none)

/-- The resolved output length: the value `update_metrics` works with after
its backfill step. -/
def resolvedOutputLen (tokenizer : String → ℕ) (r : RequestFuncOutput) : ℚ :=
  match r.output_len with
  | none => (tokenizer r.generated_text : ℚ)
  | some o => o

/-! ## Metrics aggregation (`BenchmarkMetrics.gen_benchmark_metrics`)

NumPy reductions are modelled exactly over `ℚ`: `np.mean`/`np.average` on an
empty list yield NaN (a `RuntimeWarning`, not an exception), `np.max` on an
empty list raises `ValueError`, `np.percentile` on an empty list raises
`IndexError` and otherwise uses linear interpolation over the sorted data.
`np.std` applies the float square root to the population variance; that
square root is the one genuinely inexact float operation involved, so it is a
parameter `sqrtf` of the embedding (no modelled claim depends on it). -/

/-- Stable insertion of one element into a sorted list. -/
def insertSorted (x : ℚ) : List ℚ → List ℚ
  | [] => [x]
  | y :: rest => if x ≤ y then x :: y :: rest else y :: insertSorted x rest

/-- Ascending sort, as performed inside `np.percentile`. -/
def pySort : List ℚ → List ℚ
  | [] => []
  | x :: rest => insertSorted x (pySort rest)

/-- `np.mean`: NaN on empty data, else the arithmetic mean. -/
def np_mean (xs : List ℚ) : PyFloat :=
  match xs with
  | [] => .nan
  | _ :: _ => .val (xs.sum / (xs.length : ℚ))

/-- `np.average` without weights coincides with `np.mean` (NaN on empty). -/
def np_average (xs : List ℚ) : PyFloat := np_mean xs

/-- Population variance (the quantity `np.std` takes the square root of). -/
def np_var (xs : List ℚ) : ℚ :=
  (xs.map (fun x => (x - xs.sum / (xs.length : ℚ)) ^ 2)).sum / (xs.length : ℚ)

/-- `np.std`: NaN on empty data, else the float square root of the population
variance. -/
def np_std (sqrtf : ℚ → ℚ) (xs : List ℚ) : PyFloat :=
  match xs with
  | [] => .nan
  | _ :: _ => .val (sqrtf (np_var xs))

/-- `np.max`: `ValueError` on empty data. -/
def np_max : List ℚ → Except PyErr ℚ
  | [] => .error .valueError
  | x :: rest => .ok (rest.foldl max x)

/-- `np.percentile` with the default linear interpolation: for sorted data
`s` of length `n`, the `q`-th percentile sits at fractional rank
`q * (n - 1) / 100`.  Empty data raises `IndexError`. -/
def np_percentile (xs : List ℚ) (q : ℚ) : Except PyErr ℚ :=
  match xs with
  | [] => .error .indexError
  | _ :: _ =>
    let s := pySort xs
    let h : ℚ := q * ((xs.length : ℚ) - 1) / 100
    let i : ℕ := (Int.floor h).toNat
    let lo := s.getD i 0
    let hi := s.getD (i + 1) lo
    .ok (lo + (h - (i : ℚ)) * (hi - lo))

/-- `RequestFuncOutput.total_tokens` (`prompt_len + output_len`); adding
`None` would be a Python `TypeError`. -/
def total_tokens (r : RequestFuncOutput) : Except PyErr ℚ :=
  match r.output_len with
  | none => .error .typeError
  | some o => .ok (r.prompt_len + o)

/-- The aggregator's first loop: `result.update_metrics(tokenizer)` for every
record, propagating the first raised exception. -/
def updateAll (tokenizer : String → ℕ) :
    List RequestFuncOutput → Except PyErr (List RequestFuncOutput)
  | [] => .ok []
  | r :: rest =>
    match update_metrics tokenizer r with
    | (_, some e) => .error e
    | (r', none) => (updateAll tokenizer rest).map (fun rs => r' :: rs)

/-- The `num_finished_requests` expression of the source: sum of the booleans
`result.global_time <= time_limit` over the successful records. -/
def num_finished_count (time_limit : ℚ) (rs : List RequestFuncOutput) : ℕ :=
  ((rs.filter (fun r => r.success)).map
    (fun r => if r.global_time ≤ time_limit then (1 : ℕ) else 0)).sum

/-- The list comprehension feeding `average_finished_tpot`: tpots of records
with `tpot is not None and global_time <= time_limit and success`. -/
def finished_tpots (time_limit : ℚ) (rs : List RequestFuncOutput) : List ℚ :=
  rs.filterMap (fun r =>
    match r.tpot with
    | some t => if r.global_time ≤ time_limit ∧ r.success then some t else none
    | none => none)

/-- `np.average` over `prefill_decode_ratio` values; a record still holding
`None` there would make NumPy raise `TypeError`. -/
def liftNoneTypeError : List (Option ℚ) → Except PyErr (List ℚ)
  | [] => .ok []
  | none :: _ => .error .typeError
  | some x :: rest => (liftNoneTypeError rest).map (fun l => x :: l)

/-- `BenchmarkMetrics` (field names as in the source, including the
`average_finished_topt` spelling of the constructor argument). -/
structure BenchmarkMetrics where
  num_finished_requests : ℕ
  average_finished_topt : PyFloat
  ttfts : List ℚ
  tpots : List ℚ
  throughput_tok_sec : ℚ
  all_results : List RequestFuncOutput
  average_request_latency : PyFloat
  std_request_latency : PyFloat
  average_p90 : ℚ
  max_latency : ℚ
  p99_latency : ℚ
  average_ttft : PyFloat
  average_topt : PyFloat
  prefill_decode_ratio : PyFloat
  overall_latency : ℚ
  requests_per_sec : ℚ
  gpu_counts : List (ℕ × ℕ)
  deriving DecidableEq, Repr

/-- The remainder of `gen_benchmark_metrics` once every record has been
updated, in source statement order (so the first raising operation wins). -/
def metricsOfUpdated (sqrtf : ℚ → ℚ) (rs : List RequestFuncOutput)
    (overall_latency time_limit : ℚ) (gpu_counts : List (ℕ × ℕ)) :
    Except PyErr BenchmarkMetrics := do
  let ttfts := rs.map (fun r => r.ttft)
  let tpots := rs.filterMap (fun r => r.tpot)
  let request_latencies := rs.map (fun r => r.request_latency)
  let toks ← rs.mapM total_tokens
  let throughput_tok_sec ← pydiv toks.sum overall_latency
  let nfr := num_finished_count time_limit rs
  let average_finished_tpot := np_average (finished_tpots time_limit rs)
  let pdr ← liftNoneTypeError
      (rs.map (fun r => RequestFuncOutput.prefill_decode_ratio r))
  let prefill_ratio := np_average pdr
  let average_request_latency := np_mean request_latencies
  let std_request_latency := np_std sqrtf request_latencies
  let average_p90 ← np_percentile request_latencies 90
  let max_latency ← np_max request_latencies
  let p99_latency ← np_percentile request_latencies 99
  let average_ttft := np_mean ttfts
  let average_topt := np_mean tpots
  let requests_per_sec ← pydiv (rs.length : ℚ) overall_latency
  return {
    num_finished_requests := nfr
    average_finished_topt := average_finished_tpot
    ttfts := ttfts
    tpots := tpots
    throughput_tok_sec := throughput_tok_sec
    all_results := rs
    average_request_latency := average_request_latency
    std_request_latency := std_request_latency
    average_p90 := average_p90
    max_latency := max_latency
    p99_latency := p99_latency
    average_ttft := average_ttft
    average_topt := average_topt
    prefill_decode_ratio := prefill_ratio
    overall_latency := overall_latency
    requests_per_sec := requests_per_sec
    gpu_counts := gpu_counts
  }

/-- `BenchmarkMetrics.gen_benchmark_metrics`. -/
def gen_benchmark_metrics (sqrtf : ℚ → ℚ) (tokenizer : String → ℕ)
    (req_func_outputs : List RequestFuncOutput) (overall_latency time_limit : ℚ)
    (gpu_counts : List (ℕ × ℕ)) : Except PyErr BenchmarkMetrics :=
  updateAll tokenizer req_func_outputs >>= fun rs =>
    metricsOfUpdated sqrtf rs overall_latency time_limit gpu_counts

/-- Whether an `Except` computation completed without raising. -/
def excOk {α : Type} : Except PyErr α → Bool
  | .ok _ => true
  | .error _ => false

/-! ## Load generation (`async_generate_batch_request_per_sec`,
`calc_send_out_times`) -/

/-- The target arrival rate: `float('inf')` or a finite rate. -/
inductive PyRate where
  | inf
  | fin (rate : ℚ)
  deriving DecidableEq, Repr

/-- One inter-arrival interval: at unbounded rate the code skips the sleep
(`continue`), i.e. the interval is zero; otherwise it is the `i`-th sample of
`np.random.exponential(1.0 / rate)`.  The sampler is external randomness,
modelled by the parameter `draw` (exponential samples are nonnegative). -/
def interval (rate : PyRate) (draw : ℕ → ℚ) (i : ℕ) : ℚ :=
  match rate with
  | .inf => 0
  | .fin _ => draw i

/-- The dispatch schedule produced by the `async for` loop of
`async_generate_batch_request_per_sec`: the generator yields each request
first (so the task is created at the current offset) and sleeps the drawn
interval only afterwards. -/
def scheduleAux {α : Type} (rate : PyRate) (draw : ℕ → ℚ) :
    List α → ℕ → ℚ → List (α × ℚ)
  | [], _, _ => []
  | r :: rest, i, t =>
    (r, t) :: scheduleAux rate draw rest (i + 1) (t + interval rate draw i)

/-- `ModelDetails.async_generate_batch_request_per_sec`, reduced to its
observable schedule: each request paired with the time offset (from the loop
start) at which its task is created, in yield order. -/
def async_generate_batch_request_per_sec {α : Type} (rate : PyRate)
    (draw : ℕ → ℚ) (requests : List α) : List (α × ℚ) :=
  scheduleAux rate draw requests 0 0

/-- The loop of `calc_send_out_times`: append `k` cumulative interval sums
starting from offset `last` and sample index `i`. -/
def sendTimesCore (rate : PyRate) (draw : ℕ → ℚ) : ℕ → ℕ → ℚ → List ℚ
  | _, 0, _ => []
  | i, k + 1, last =>
    (last + interval rate draw i) ::
      sendTimesCore rate draw (i + 1) k (last + interval rate draw i)

/-- `calc_send_out_times(requests, request_rate, exp_time)`: start from
`[0]`, append `len(requests) - 1` cumulative arrival times (Python's
`range(len(requests) - 1)` is empty when the list is empty or a singleton,
matching truncated subtraction), then duplicate the final element.
`exp_time` is accepted and unused, as in the source. -/
def calc_send_out_times {α : Type} (requests : List α) (rate : PyRate)
    (exp_time : ℚ) (draw : ℕ → ℚ) : List ℚ :=
  let core := 0 :: sendTimesCore rate draw 0 (requests.length - 1) 0
  core ++ [core.getLast (by simp)]

/-! ## Runtime selection and dispatch (`select_runtime_with_identifiers`,
`async_send_request`) -/

/-- Python list indexing `self.runtimes[runtime_id]` for a nonnegative
index: `IndexError` when out of range. -/
def pyIndex {α : Type} (l : List α) (i : ℕ) : Except PyErr α :=
  match l.get? i with
  | none => .error .indexError
  | some a => .ok a

/-- Result of `ModelDetails.select_runtime_with_identifiers`: the mutated
`sampling_params`, the two identifier values handed to the router, the
router's index and the (possibly failing) list access `self.runtimes[idx]`. -/
structure SelectOutcome where
  params : PyDict
  experiment_id : PyVal
  request_id : PyVal
  idx : ℕ
  runtime : Except PyErr RuntimeE

/-- `ModelDetails.select_runtime_with_identifiers`: pop `experiment_id` and
`request_id` out of `sampling_params` (defaulting each to a fresh
`random_uuid_string()`, modelled by the draws `uuidExp`/`uuidReq`), ask the
router (the external policy collaborator) for an index, and return
`self.runtimes[index]`. -/
def select_runtime_with_identifiers
    (router : String → PyVal → PyVal → List ℕ → ℕ)
    (uuidExp uuidReq : PyVal) (runtimes : List RuntimeE)
    (text : String) (sampling_params : PyDict) (input_ids : List ℕ) :
    SelectOutcome :=
  let pe := dictPop sampling_params "experiment_id" uuidExp
  let pr := dictPop pe.2 "request_id" uuidReq
  let idx := router text pe.1 pr.1 input_ids
  { params := pr.2, experiment_id := pe.1, request_id := pr.1, idx := idx,
    runtime := pyIndex runtimes idx }

/-- One decoded backend response, as obtained after fully draining the
chunked stream and parsing it as JSON: whether it carries an `error` field,
and the token accounting used afterwards. -/
structure Resp where
  hasError : Bool
  completion_tokens : ℚ := 0
  prompt_tokens : ℚ := 0
  deriving DecidableEq, Repr

/-- The `while True` retry loop of `async_send_request`, posting to the
already-bound runtime `idx` with the fixed request id `rid`.  `responses k`
is the decoded reply to the `k`-th attempt (the network environment);
`fuel` bounds the unbounded loop for the embedding — a `none` result means
the loop was still retrying after `fuel` attempts.  Returns the list of
issued attempts `(runtime index, rid)` and the final accepted response. -/
def sendLoop (idx : ℕ) (rid : String) (responses : ℕ → Resp) :
    ℕ → ℕ → List (ℕ × String) × Option Resp
  | _, 0 => ([], none)
  | k, fuel + 1 =>
    let resp := responses k
    if resp.hasError then
      let res := sendLoop idx rid responses (k + 1) fuel
      ((idx, rid) :: res.1, res.2)
    else ([(idx, rid)], some resp)

/-- Observable outcome of one `async_send_request` call: how many times the
router was invoked, every HTTP attempt `(runtime index, request id)`, the
accepted response, and the `sampling_params` left behind. -/
structure SendOutcome where
  selectCalls : ℕ
  attempts : List (ℕ × String)
  result : Option Resp
  params : PyDict

/-- `ModelDetails.async_send_request`: draw a fresh `rid`, store it in
`sampling_params["request_id"]`, select the serving runtime ONCE (the single
`select_runtime_with_identifiers` call sits before the `while True` loop;
the loop body re-posts to the already-bound `runtime.generate_url`), then
repeat the streamed POST until the decoded response has no `error` field.
`selectCalls` records the number of router invocations performed.
Wall-clock fields (`request_latency`, `TTFT`, `global_time`,
`topt_req_sec`) are real-time measurements and are not modelled. -/
def async_send_request (router : String → PyVal → PyVal → List ℕ → ℕ)
    (uuidExp uuidReq : PyVal) (rid : String) (runtimes : List RuntimeE)
    (text : String) (sampling_params : PyDict) (input_ids : List ℕ)
    (responses : ℕ → Resp) (fuel : ℕ) : Except PyErr SendOutcome :=
  let params1 := dictSet sampling_params "request_id" (PyVal.str rid)
  let sel := select_runtime_with_identifiers router uuidExp uuidReq runtimes
    text params1 input_ids
  match sel.runtime with
  | .error e => .error e
  | .ok _ =>
    let lp := sendLoop sel.idx rid responses 0 fuel
    .ok { selectCalls := 1, attempts := lp.1, result := lp.2,
          params := sel.params }

/-- A concrete two-attempt outcome used to instantiate the dispatch
theorems. -/
def sampleSendOutcome : SendOutcome :=
  { selectCalls := 1, attempts := [(0, "rid-1"), (0, "rid-1")],
    result := some { hasError := false }, params := [] }

/-! ## Theorems -/

theorem dictLookup_dictRemove_self (k : String) (d : PyDict) :
    dictLookup k (dictRemove k d) = none := by
  induction d with
  | nil => rfl
  | cons p rest ih =>
    by_cases h : p.1 = k
    · simpa [dictRemove, List.filter_cons, h] using ih
    · simpa [dictRemove, List.filter_cons, h, dictLookup] using ih

theorem dictLookup_dictRemove_other (k k' : String) (d : PyDict) (h : k' ≠ k) :
    dictLookup k' (dictRemove k d) = dictLookup k' d := by
  induction d with
  | nil => rfl
  | cons p rest ih =>
    by_cases hk : p.1 = k
    · have hkk : ¬(k = k') := fun e => h e.symm
      simpa [dictRemove, List.filter_cons, hk, dictLookup, hkk] using ih
    · by_cases hk' : p.1 = k'
      · simp [dictRemove, List.filter_cons, hk, dictLookup, hk', h]
      · simpa [dictRemove, List.filter_cons, hk, dictLookup, hk'] using ih

/-- C3 counterexample: a `GPUConfig` carrying both SSH credentials and a
pre-existing URL is provisioned as the SSH variant, not the URL-only variant:
`load_runtimes` tests `config.use_ssh` before `config.url`, so SSH (not the
URL) takes precedence. -/
theorem C3_url_precedence_counterexample :
    load_runtimes "model-x"
        [{ gpu_id := 0, url := some "http://host:8000", use_ssh := true,
           ssh_config := [("hostname", "h")] }]
      = [RuntimeVariant.sshRuntime "model-x" [("hostname", "h")] 0] ∧
    load_runtimes "model-x"
        [{ gpu_id := 0, url := some "http://host:8000", use_ssh := true,
           ssh_config := [("hostname", "h")] }]
      ≠ [RuntimeVariant.urlRuntime "http://host:8000" 0] := by
  exact ⟨rfl, by decide⟩

/-- C3 (amended): whenever a `GPUConfig` has `use_ssh` set, `load_runtimes`
constructs the SSH-managed variant for it — SSH credentials take precedence
and any supplied URL is ignored. -/
theorem C3_ssh_precedence (model_path : String) (config : GPUConfig)
    (h : config.use_ssh = true) :
    load_runtime model_path config
      = RuntimeVariant.sshRuntime model_path config.ssh_config config.gpu_id := by
  simp [load_runtime, h]

theorem C3_ssh_precedence_witness :
    ({ gpu_id := 1, url := some "http://host:8000", use_ssh := true,
       ssh_config := [("hostname", "h")] } : GPUConfig).use_ssh = true ∧
    load_runtime "model-x"
        { gpu_id := 1, url := some "http://host:8000", use_ssh := true,
          ssh_config := [("hostname", "h")] }
      = RuntimeVariant.sshRuntime "model-x" [("hostname", "h")] 1 :=
  ⟨rfl, C3_ssh_precedence "model-x" _ rfl⟩

/-- C2 counterexample: with two runtimes of which the first is unreachable,
`clear_kv_cache` completes no flush call at all — the `ConnectionError` from
the first GET aborts the iteration and propagates — even though the second
runtime's flush URL is reachable. -/
theorem C2_flush_counterexample :
    clear_kv_cache (fun u => u == "http://b/flush_cache")
        [{ url := "http://a" }, { url := "http://b" }]
      = ([], some PyErr.connectionError) ∧
    (fun u => u == "http://b/flush_cache") (flush_cache_url { url := "http://b" })
      = true := by
  exact ⟨rfl, by decide⟩

/-- C2 (amended): `clear_kv_cache` completes flush calls exactly for the
longest prefix of reachable runtimes; if any runtime in the list is
unreachable, a `ConnectionError` propagates to the caller and the runtimes
after the first unreachable one are never flushed. -/
theorem C2_flush_prefix (reachable : String → Bool) (runtimes : List RuntimeE) :
    clear_kv_cache reachable runtimes
      = ((runtimes.map flush_cache_url).takeWhile reachable,
         if runtimes.all (fun r => reachable (flush_cache_url r)) then none
         else some PyErr.connectionError) := by
  induction runtimes with
  | nil => rfl
  | cons r rest ih =>
    by_cases h : reachable (flush_cache_url r) <;>
      simp [clear_kv_cache, h, List.takeWhile_cons, ih, List.all_cons]

/-- C4 counterexample: a failed record with the dataclass defaults
(`request_latency = 0`) makes `update_metrics` raise `ZeroDivisionError` at
the `prefill_decode_ratio` assignment, and `prefill_decode_ratio` is left
unset rather than being set to `ttft / request_latency`. -/
theorem C4_prefill_counterexample :
    (update_metrics (fun _ => 0) {}).2 = some PyErr.zeroDivision ∧
    RequestFuncOutput.prefill_decode_ratio (update_metrics (fun _ => 0) {}).1
      = none := by
  exact ⟨rfl, rfl⟩

/-- C4 (amended): for every record whose `request_latency` is nonzero,
`update_metrics` raises nothing and sets `prefill_decode_ratio` to
`ttft / request_latency`; when `request_latency = 0` the division raises
`ZeroDivisionError` instead. -/
theorem C4_prefill_ratio (tokenizer : String → ℕ) (r : RequestFuncOutput)
    (h : r.request_latency ≠ 0) :
    (update_metrics tokenizer r).2 = none ∧
    RequestFuncOutput.prefill_decode_ratio (update_metrics tokenizer r).1
      = some (r.ttft / r.request_latency) := by
  unfold update_metrics
  cases hol : r.output_len with
  | none =>
    by_cases h1 : (1 : ℚ) < (tokenizer r.generated_text : ℚ)
    · have hne : ((tokenizer r.generated_text : ℚ) - 1) ≠ 0 := by
        intro e
        rw [sub_eq_zero] at e
        simp [e] at h1
      simp [hol, h1, pydiv, h, hne]
    · simp [hol, h1, pydiv, h]
  | some o =>
    by_cases h1 : (1 : ℚ) < o
    · have hne : (o - 1) ≠ 0 := by
        intro e
        rw [sub_eq_zero] at e
        simp [e] at h1
      simp [hol, h1, pydiv, h, hne]
    · simp [hol, h1, pydiv, h]

theorem C4_prefill_ratio_witness :
    ({ request_latency := 2, ttft := 1, output_len := some 3 }
        : RequestFuncOutput).request_latency ≠ 0 ∧
    RequestFuncOutput.prefill_decode_ratio
        (update_metrics (fun _ => 0)
          { request_latency := 2, ttft := 1, output_len := some 3 }).1
      = some ((1 : ℚ) / 2) :=
  ⟨by norm_num,
   (C4_prefill_ratio (fun _ => 0)
      { request_latency := 2, ttft := 1, output_len := some 3 }
      (by norm_num)).2⟩

/-- C5: for every record whose `tpot` is still unset on entry (the dataclass
default — `tpot` is only ever written by `update_metrics` itself), after
`update_metrics` the field `tpot` is defined, with value
`(request_latency - ttft) / (output_len - 1)`, exactly when the resolved
`output_len` exceeds 1; in particular it stays `None` when the resolved
`output_len` is 1. -/
theorem C5_tpot_iff (tokenizer : String → ℕ) (r : RequestFuncOutput)
    (h : r.tpot = none) :
    (update_metrics tokenizer r).1.tpot
      = if 1 < resolvedOutputLen tokenizer r then
          some ((r.request_latency - r.ttft) / (resolvedOutputLen tokenizer r - 1))
        else none := by
  unfold update_metrics resolvedOutputLen
  cases hol : r.output_len with
  | none =>
    by_cases h1 : (1 : ℚ) < (tokenizer r.generated_text : ℚ)
    · have hne : ((tokenizer r.generated_text : ℚ) - 1) ≠ 0 := by
        intro e
        rw [sub_eq_zero] at e
        simp [e] at h1
      by_cases h0 : r.request_latency = 0 <;> simp [hol, h1, pydiv, hne, h0]
    · by_cases h0 : r.request_latency = 0 <;> simp [hol, h1, pydiv, h, h0]
  | some o =>
    by_cases h1 : (1 : ℚ) < o
    · have hne : (o - 1) ≠ 0 := by
        intro e
        rw [sub_eq_zero] at e
        simp [e] at h1
      by_cases h0 : r.request_latency = 0 <;> simp [hol, h1, pydiv, hne, h0]
    · by_cases h0 : r.request_latency = 0 <;> simp [hol, h1, pydiv, h, h0]

theorem C5_tpot_iff_witness :
    ({ request_latency := 1, output_len := some 1, success := true }
        : RequestFuncOutput).tpot = none ∧
    (update_metrics (fun _ => 0)
        { request_latency := 1, output_len := some 1, success := true }).1.tpot
      = none :=
  ⟨rfl, by
    have h := C5_tpot_iff (fun _ => 0)
      { request_latency := 1, output_len := some 1, success := true } rfl
    simpa [resolvedOutputLen] using h⟩

/-- Inversion for a successful `excOk` check. -/
theorem excOk_exists {α : Type} (x : Except PyErr α) (h : excOk x = true) :
    ∃ v, x = .ok v := by
  cases x with
  | error e => simp [excOk] at h
  | ok v => exact ⟨v, rfl⟩

/-- Inversion for a successful monadic bind in `Except`. -/
theorem except_bind_ok {α β : Type} {x : Except PyErr α} {f : α → Except PyErr β}
    {b : β} (h : x >>= f = .ok b) : ∃ a, x = .ok a ∧ f a = .ok b := by
  cases x with
  | error e => exact Except.noConfusion h
  | ok a => exact ⟨a, rfl, h⟩

/-- `update_metrics` only writes derived fields; in particular `success` and
`global_time` survive unchanged. -/
theorem update_metrics_preserves (tokenizer : String → ℕ) (r : RequestFuncOutput) :
    (update_metrics tokenizer r).1.success = r.success ∧
    (update_metrics tokenizer r).1.global_time = r.global_time := by
  unfold update_metrics
  cases hol : r.output_len with
  | none =>
    by_cases h1 : (1 : ℚ) < (tokenizer r.generated_text : ℚ)
    · have hne : ((tokenizer r.generated_text : ℚ) - 1) ≠ 0 := by
        intro e
        rw [sub_eq_zero] at e
        simp [e] at h1
      by_cases h0 : r.request_latency = 0 <;> simp [hol, h1, pydiv, hne, h0]
    · by_cases h0 : r.request_latency = 0 <;> simp [hol, h1, pydiv, h0]
  | some o =>
    by_cases h1 : (1 : ℚ) < o
    · have hne : (o - 1) ≠ 0 := by
        intro e
        rw [sub_eq_zero] at e
        simp [e] at h1
      by_cases h0 : r.request_latency = 0 <;> simp [hol, h1, pydiv, hne, h0]
    · by_cases h0 : r.request_latency = 0 <;> simp [hol, h1, pydiv, h0]

/-- The per-record update loop preserves `success` and `global_time` of every
record, position by position. -/
theorem updateAll_forall2 (tokenizer : String → ℕ) :
    ∀ (l rs : List RequestFuncOutput), updateAll tokenizer l = .ok rs →
    List.Forall₂
      (fun a b => b.success = a.success ∧ b.global_time = a.global_time) l rs := by
  intro l
  induction l with
  | nil =>
    intro rs h
    simp only [updateAll] at h
    cases h
    exact .nil
  | cons r rest ih =>
    intro rs h
    unfold updateAll at h
    cases hu : update_metrics tokenizer r with
    | mk r' eopt =>
      rw [hu] at h
      cases eopt with
      | some e => simp at h
      | none =>
        cases hrest : updateAll tokenizer rest with
        | error e => rw [hrest] at h; simp [Except.map] at h
        | ok rs' =>
          rw [hrest] at h
          simp only [Except.map, Except.ok.injEq] at h
          subst h
          have hp := update_metrics_preserves tokenizer r
          rw [hu] at hp
          exact .cons ⟨hp.1, hp.2⟩ (ih rs' hrest)

/-- The code's boolean-sum for `num_finished_requests` is the count of
records that are successful and inside the time limit. -/
theorem num_finished_count_eq_countP (lim : ℚ) (rs : List RequestFuncOutput) :
    num_finished_count lim rs
      = rs.countP (fun r => r.success && decide (r.global_time ≤ lim)) := by
  induction rs with
  | nil => rfl
  | cons r rest ih =>
    unfold num_finished_count at ih ⊢
    by_cases hs : r.success
    · by_cases hg : r.global_time ≤ lim
      · simp [List.filter_cons, hs, hg, List.countP_cons, ih]
        omega
      · simp [List.filter_cons, hs, hg, List.countP_cons, ih]
    · simp [List.filter_cons, hs, List.countP_cons, ih]

/-- Counting a predicate on the preserved fields is invariant under the
update loop's `Forall₂` relation. -/
theorem countP_transfer (lim : ℚ) :
    ∀ (l rs : List RequestFuncOutput),
    List.Forall₂
      (fun a b => b.success = a.success ∧ b.global_time = a.global_time) l rs →
    rs.countP (fun r => r.success && decide (r.global_time ≤ lim))
      = l.countP (fun r => r.success && decide (r.global_time ≤ lim)) := by
  intro l rs hf
  induction hf with
  | nil => rfl
  | cons hab _ ih =>
    simp [List.countP_cons, hab.1, hab.2, ih]

/-- Whenever the tail of the aggregator returns, its `num_finished_requests`,
`average_finished_topt` and `all_results` fields are the advertised
expressions over the updated records. -/
theorem metricsOfUpdated_fields (sqrtf : ℚ → ℚ) (rs : List RequestFuncOutput)
    (L lim : ℚ) (gc : List (ℕ × ℕ)) (m : BenchmarkMetrics)
    (h : metricsOfUpdated sqrtf rs L lim gc = .ok m) :
    m.num_finished_requests = num_finished_count lim rs ∧
    m.average_finished_topt = np_average (finished_tpots lim rs) ∧
    m.all_results = rs := by
  unfold metricsOfUpdated at h
  obtain ⟨toks, h1, h⟩ := except_bind_ok h
  obtain ⟨tps, h2, h⟩ := except_bind_ok h
  obtain ⟨pdr, h3, h⟩ := except_bind_ok h
  obtain ⟨p90, h4, h⟩ := except_bind_ok h
  obtain ⟨mx, h5, h⟩ := except_bind_ok h
  obtain ⟨p99, h6, h⟩ := except_bind_ok h
  obtain ⟨rps, h7, h⟩ := except_bind_ok h
  have hm := Except.ok.inj h
  subst hm
  exact ⟨rfl, rfl, rfl⟩

/-- C6: whenever aggregation completes, `num_finished_requests` equals the
number of input records with `success = true` and `global_time ≤ time_limit`;
failed records and successful records past the limit are not counted. -/
theorem C6_num_finished (sqrtf : ℚ → ℚ) (tokenizer : String → ℕ)
    (reqs : List RequestFuncOutput) (overall_latency time_limit : ℚ)
    (gpu_counts : List (ℕ × ℕ))
    (h : excOk (gen_benchmark_metrics sqrtf tokenizer reqs overall_latency
        time_limit gpu_counts) = true) :
    (gen_benchmark_metrics sqrtf tokenizer reqs overall_latency time_limit
        gpu_counts).map (fun m => m.num_finished_requests)
      = .ok (reqs.countP
          (fun r => r.success && decide (r.global_time ≤ time_limit))) := by
  obtain ⟨m, hm⟩ := excOk_exists _ h
  have hm' := hm
  unfold gen_benchmark_metrics at hm'
  obtain ⟨rs, hu, hmo⟩ := except_bind_ok hm'
  obtain ⟨hn, _, _⟩ :=
    metricsOfUpdated_fields sqrtf rs overall_latency time_limit gpu_counts m hmo
  rw [hm]
  simp only [Except.map, Except.ok.injEq]
  rw [hn, num_finished_count_eq_countP]
  exact countP_transfer time_limit reqs rs (updateAll_forall2 tokenizer reqs rs hu)

theorem C6_num_finished_witness :
    excOk (gen_benchmark_metrics (fun q => q) (fun _ => 0)
        [{ request_latency := 1, output_len := some 2, success := true,
           global_time := 5 },
         { request_latency := 2, output_len := some 1, success := false,
           global_time := 6 },
         { request_latency := 3, output_len := some 3, success := true,
           global_time := 200 }] 1 100 []) = true ∧
    (gen_benchmark_metrics (fun q => q) (fun _ => 0)
        [{ request_latency := 1, output_len := some 2, success := true,
           global_time := 5 },
         { request_latency := 2, output_len := some 1, success := false,
           global_time := 6 },
         { request_latency := 3, output_len := some 3, success := true,
           global_time := 200 }] 1 100 []).map (fun m => m.num_finished_requests)
      = .ok ([({ request_latency := 1, output_len := some 2, success := true,
                 global_time := 5 } : RequestFuncOutput),
              { request_latency := 2, output_len := some 1, success := false,
                global_time := 6 },
              { request_latency := 3, output_len := some 3, success := true,
                global_time := 200 }].countP
          (fun r => r.success && decide (r.global_time ≤ (100 : ℚ)))) :=
  ⟨rfl, C6_num_finished (fun q => q) (fun _ => 0) _ 1 100 [] rfl⟩

/-- C7 counterexample: the empty record collection trivially has no
successful in-window record with a defined tpot, yet aggregation does not
return a `BenchmarkMetrics` value at all — `np.percentile` over the empty
latency list raises `IndexError`. -/
theorem C7_empty_counterexample :
    gen_benchmark_metrics (fun q => q) (fun _ => 0) [] 1 100 []
      = .error PyErr.indexError ∧
    finished_tpots 100 [] = [] :=
  ⟨rfl, rfl⟩

/-- C7 (amended): whenever aggregation completes at all and the restricted
set — successful records within the time limit whose updated `tpot` is
defined — is empty, the returned `average_finished_topt` is NaN rather than
an exception. -/
theorem C7_nan_average (sqrtf : ℚ → ℚ) (tokenizer : String → ℕ)
    (reqs : List RequestFuncOutput) (overall_latency time_limit : ℚ)
    (gpu_counts : List (ℕ × ℕ))
    (h : excOk (gen_benchmark_metrics sqrtf tokenizer reqs overall_latency
        time_limit gpu_counts) = true)
    (h2 : (gen_benchmark_metrics sqrtf tokenizer reqs overall_latency
        time_limit gpu_counts).map
          (fun m => finished_tpots time_limit m.all_results) = .ok []) :
    (gen_benchmark_metrics sqrtf tokenizer reqs overall_latency time_limit
        gpu_counts).map (fun m => m.average_finished_topt)
      = .ok PyFloat.nan := by
  obtain ⟨m, hm⟩ := excOk_exists _ h
  have hm' := hm
  unfold gen_benchmark_metrics at hm'
  obtain ⟨rs, hu, hmo⟩ := except_bind_ok hm'
  obtain ⟨_, ha, hall⟩ :=
    metricsOfUpdated_fields sqrtf rs overall_latency time_limit gpu_counts m hmo
  rw [hm] at h2
  simp only [Except.map, Except.ok.injEq] at h2
  rw [hall] at h2
  rw [hm]
  simp only [Except.map, Except.ok.injEq]
  rw [ha, h2]
  simp [np_average, np_mean]

theorem C7_nan_average_witness :
    excOk (gen_benchmark_metrics (fun q => q) (fun _ => 0)
        [{ request_latency := 1, output_len := some 1, success := true,
           global_time := 0 }] 1 100 []) = true ∧
    (gen_benchmark_metrics (fun q => q) (fun _ => 0)
        [{ request_latency := 1, output_len := some 1, success := true,
           global_time := 0 }] 1 100 []).map
      (fun m => finished_tpots 100 m.all_results) = .ok [] ∧
    (gen_benchmark_metrics (fun q => q) (fun _ => 0)
        [{ request_latency := 1, output_len := some 1, success := true,
           global_time := 0 }] 1 100 []).map
      (fun m => m.average_finished_topt) = .ok PyFloat.nan :=
  ⟨rfl, rfl,
   C7_nan_average (fun q => q) (fun _ => 0) _ 1 100 [] rfl rfl⟩

theorem scheduleAux_map_fst {α : Type} (rate : PyRate) (draw : ℕ → ℚ) :
    ∀ (l : List α) (i : ℕ) (t : ℚ),
    (scheduleAux rate draw l i t).map Prod.fst = l := by
  intro l
  induction l with
  | nil => intro i t; rfl
  | cons r rest ih => intro i t; simp [scheduleAux, ih]

theorem scheduleAux_inf_snd {α : Type} (draw : ℕ → ℚ) :
    ∀ (l : List α) (i : ℕ) (t : ℚ) (p : α × ℚ),
    p ∈ scheduleAux .inf draw l i t → p.2 = t := by
  intro l
  induction l with
  | nil => intro i t p hp; simp [scheduleAux] at hp
  | cons r rest ih =>
    intro i t p hp
    simp only [scheduleAux, interval, add_zero, List.mem_cons] at hp
    rcases hp with hp | hp
    · rw [hp]
    · exact ih (i + 1) t p hp

theorem sendTimesCore_inf (draw : ℕ → ℚ) :
    ∀ (k i : ℕ) (last : ℚ),
    sendTimesCore .inf draw i k last = List.replicate k last := by
  intro k
  induction k with
  | zero => intro i last; rfl
  | succ k ih =>
    intro i last
    simp [sendTimesCore, interval, List.replicate, ih]

/-- C8: the first request is dispatched with zero inter-arrival delay, tasks
are created in sequence order, and at unbounded rate every dispatch offset is
zero — likewise every entry of `calc_send_out_times` is zero. -/
theorem C8_burst_dispatch {α : Type} (rate : PyRate) (draw : ℕ → ℚ)
    (requests : List α) (exp_time : ℚ) (h : requests ≠ []) :
    ((async_generate_batch_request_per_sec rate draw requests).head?).map
        Prod.snd = some 0 ∧
    (async_generate_batch_request_per_sec rate draw requests).map
        Prod.fst = requests ∧
    (rate = .inf →
      ∀ p ∈ async_generate_batch_request_per_sec rate draw requests,
        p.2 = 0) ∧
    (rate = .inf →
      ∀ x ∈ calc_send_out_times requests rate exp_time draw, x = 0) := by
  refine ⟨?_, scheduleAux_map_fst rate draw requests 0 0, ?_, ?_⟩
  · cases requests with
    | nil => exact absurd rfl h
    | cons r rest => rfl
  · intro hr p hp
    subst hr
    exact scheduleAux_inf_snd draw requests 0 0 p hp
  · intro hr x hx
    subst hr
    have hx' : x ∈ 0 :: sendTimesCore PyRate.inf draw 0 (requests.length - 1) 0 := by
      simp only [calc_send_out_times, List.mem_append, List.mem_singleton] at hx
      rcases hx with hm | hm
      · exact hm
      · rw [hm]; exact List.getLast_mem _
    rw [sendTimesCore_inf] at hx'
    rcases List.mem_cons.mp hx' with hm | hm
    · exact hm
    · exact List.eq_of_mem_replicate hm

theorem C8_burst_dispatch_witness :
    (["a", "b"] : List String) ≠ [] ∧
    (((async_generate_batch_request_per_sec PyRate.inf (fun _ => 1)
        ["a", "b"]).head?).map Prod.snd = some 0 ∧
     (async_generate_batch_request_per_sec PyRate.inf (fun _ => 1)
        ["a", "b"]).map Prod.fst = ["a", "b"] ∧
     (PyRate.inf = PyRate.inf →
       ∀ p ∈ async_generate_batch_request_per_sec PyRate.inf (fun _ => 1)
          ["a", "b"], p.2 = 0) ∧
     (PyRate.inf = PyRate.inf →
       ∀ x ∈ calc_send_out_times ["a", "b"] PyRate.inf 0 (fun _ => 1),
         x = 0)) :=
  ⟨by simp,
   C8_burst_dispatch PyRate.inf (fun _ => 1) ["a", "b"] 0 (by simp)⟩

/-- C9 counterexample: on the empty request list `calc_send_out_times`
returns `[0, 0]` of length 2, not length `0 + 1`. -/
theorem C9_length_counterexample :
    calc_send_out_times ([] : List ℕ) (PyRate.fin 1) 100 (fun _ => 0)
      = [0, 0] ∧
    (calc_send_out_times ([] : List ℕ) (PyRate.fin 1) 100
        (fun _ => 0)).length ≠ ([] : List ℕ).length + 1 :=
  ⟨rfl, by decide⟩

theorem interval_nonneg (rate : PyRate) (draw : ℕ → ℚ)
    (hdraw : ∀ i, 0 ≤ draw i) (i : ℕ) : 0 ≤ interval rate draw i := by
  cases rate with
  | inf => exact le_refl 0
  | fin r => exact hdraw i

theorem sendTimesCore_length (rate : PyRate) (draw : ℕ → ℚ) :
    ∀ (k i : ℕ) (last : ℚ), (sendTimesCore rate draw i k last).length = k := by
  intro k
  induction k with
  | zero => intro i last; rfl
  | succ k ih => intro i last; simp [sendTimesCore, ih]

theorem sendTimesCore_chain (rate : PyRate) (draw : ℕ → ℚ)
    (hdraw : ∀ i, 0 ≤ draw i) :
    ∀ (k i : ℕ) (last : ℚ),
    List.Chain (· ≤ ·) last (sendTimesCore rate draw i k last) := by
  intro k
  induction k with
  | zero => intro i last; exact List.Chain.nil
  | succ k ih =>
    intro i last
    exact List.Chain.cons
      (le_add_of_nonneg_right (interval_nonneg rate draw hdraw i))
      (ih (i + 1) _)

/-- C9 (amended): for every nonempty request list (and nonnegative
exponential draws), `calc_send_out_times` returns a list of length
`len(requests) + 1` starting at 0, non-decreasing, with its final two
elements equal; on the empty list it instead returns `[0, 0]` of length 2. -/
theorem C9_send_out_times_shape {α : Type} (requests : List α) (rate : PyRate)
    (exp_time : ℚ) (draw : ℕ → ℚ) (hreq : requests ≠ [])
    (hdraw : ∀ i, 0 ≤ draw i) :
    (calc_send_out_times requests rate exp_time draw).length
      = requests.length + 1 ∧
    (calc_send_out_times requests rate exp_time draw).head? = some 0 ∧
    List.Chain' (· ≤ ·) (calc_send_out_times requests rate exp_time draw) ∧
    (calc_send_out_times requests rate exp_time draw).getLast?
      = (calc_send_out_times requests rate exp_time draw).dropLast.getLast? := by
  have hlen : 0 < requests.length := List.length_pos.mpr hreq
  refine ⟨?_, ?_, ?_, ?_⟩
  · simp only [calc_send_out_times, List.length_append, List.length_cons,
      sendTimesCore_length rate draw, List.length_nil]
    omega
  · simp [calc_send_out_times]
  · simp only [calc_send_out_times]
    rw [List.chain'_append]
    refine ⟨sendTimesCore_chain rate draw hdraw (requests.length - 1) 0 0,
      List.chain'_singleton _, ?_⟩
    intro x hx y hy
    rw [List.getLast?_eq_getLast _ (by simp)] at hx
    simp only [List.head?_cons, Option.mem_def, Option.some.injEq] at hx hy
    rw [← hx, ← hy]
  · simp only [calc_send_out_times]
    rw [List.getLast?_concat, List.dropLast_concat,
      List.getLast?_eq_getLast _ (by simp)]

theorem C9_send_out_times_shape_witness :
    (["a", "b"] : List String) ≠ [] ∧
    ((calc_send_out_times ["a", "b"] (PyRate.fin 1) 0 (fun _ => 1)).length
        = (["a", "b"] : List String).length + 1 ∧
     (calc_send_out_times ["a", "b"] (PyRate.fin 1) 0
        (fun _ => 1)).head? = some 0 ∧
     List.Chain' (· ≤ ·)
        (calc_send_out_times ["a", "b"] (PyRate.fin 1) 0 (fun _ => 1)) ∧
     (calc_send_out_times ["a", "b"] (PyRate.fin 1) 0 (fun _ => 1)).getLast?
        = (calc_send_out_times ["a", "b"] (PyRate.fin 1) 0
            (fun _ => 1)).dropLast.getLast?) :=
  ⟨by simp,
   C9_send_out_times_shape ["a", "b"] (PyRate.fin 1) 0 (fun _ => 1)
     (by simp) (fun _ => by norm_num)⟩

theorem dictRemove_dictRemove (k1 k2 : String) (d : PyDict) :
    dictRemove k2 (dictRemove k1 d)
      = d.filter (fun p => !(p.1 == k1) && !(p.1 == k2)) := by
  simp only [dictRemove, List.filter_filter]
  congr 1
  funext p
  exact Bool.and_comm _ _

/-- C10: `select_runtime_with_identifiers` removes exactly the keys
`experiment_id` and `request_id` from `sampling_params` (neither is present
afterwards) and keeps every other entry, in order, with its value. -/
theorem C10_identifier_pop (router : String → PyVal → PyVal → List ℕ → ℕ)
    (uuidExp uuidReq : PyVal) (runtimes : List RuntimeE) (text : String)
    (sampling_params : PyDict) (input_ids : List ℕ) :
    (select_runtime_with_identifiers router uuidExp uuidReq runtimes text
        sampling_params input_ids).params
      = sampling_params.filter
          (fun p => !(p.1 == "experiment_id") && !(p.1 == "request_id")) ∧
    dictLookup "experiment_id"
      (select_runtime_with_identifiers router uuidExp uuidReq runtimes text
        sampling_params input_ids).params = none ∧
    dictLookup "request_id"
      (select_runtime_with_identifiers router uuidExp uuidReq runtimes text
        sampling_params input_ids).params = none := by
  refine ⟨?_, ?_, ?_⟩
  · exact dictRemove_dictRemove "experiment_id" "request_id" sampling_params
  · show dictLookup "experiment_id"
      (dictRemove "request_id" (dictRemove "experiment_id" sampling_params))
        = none
    rw [dictLookup_dictRemove_other _ _ _ (by decide)]
    exact dictLookup_dictRemove_self _ _
  · exact dictLookup_dictRemove_self _ _

/-- C1 counterexample: with two runtimes and a backend that rejects the
first attempt and accepts the second, the engine performs two attempts but
only one runtime selection — both attempts target runtime 0 with the same
request id — so runtime selection is NOT performed anew for each retry. -/
theorem C1_reselect_counterexample :
    (async_send_request (fun _ _ _ _ => 0) (PyVal.str "e") (PyVal.str "u")
        "rid-1" [{ url := "http://a" }, { url := "http://b" }] "hello" [] []
        (fun k => if k = 0 then ({ hasError := true } : Resp)
          else { hasError := false }) 5).map
      (fun o => (o.selectCalls, o.attempts, o.result))
      = .ok (1, [(0, "rid-1"), (0, "rid-1")],
          some { hasError := false }) ∧
    (async_send_request (fun _ _ _ _ => 0) (PyVal.str "e") (PyVal.str "u")
        "rid-1" [{ url := "http://a" }, { url := "http://b" }] "hello" [] []
        (fun k => if k = 0 then ({ hasError := true } : Resp)
          else { hasError := false }) 5).map
      (fun o => decide (o.selectCalls = o.attempts.length)) = .ok false :=
  ⟨rfl, rfl⟩

theorem sendLoop_attempts (idx : ℕ) (rid : String) (responses : ℕ → Resp) :
    ∀ (fuel k : ℕ),
    (∀ a ∈ (sendLoop idx rid responses k fuel).1, a = (idx, rid)) ∧
    (∀ r, (sendLoop idx rid responses k fuel).2 = some r →
      r.hasError = false) := by
  intro fuel
  induction fuel with
  | zero =>
    intro k
    exact ⟨fun a ha => absurd ha (by simp [sendLoop]),
           fun r hr => absurd hr (by simp [sendLoop])⟩
  | succ fuel ih =>
    intro k
    by_cases hr : (responses k).hasError
    · constructor
      · intro a ha
        simp only [sendLoop, hr, if_true] at ha
        rcases List.mem_cons.mp ha with ha | ha
        · exact ha
        · exact (ih (k + 1)).1 a ha
      · intro r hres
        simp only [sendLoop, hr, if_true] at hres
        exact (ih (k + 1)).2 r hres
    · constructor
      · intro a ha
        simp only [sendLoop, hr, if_false] at ha
        simpa using ha
      · intro r hres
        simp only [sendLoop, hr, if_false] at hres
        have : responses k = r := by simpa using hres
        rw [← this]
        simpa using hr

/-- C1 (amended): whenever `async_send_request` returns, the router was
invoked exactly once; every retry re-sends the same request identifier to
the SAME runtime selected before the first attempt (selection is not
repeated); and any returned response carries no `error` field — the
backend-reported error never surfaces to the caller. -/
theorem C1_retry_same_runtime (router : String → PyVal → PyVal → List ℕ → ℕ)
    (uuidExp uuidReq : PyVal) (rid : String) (runtimes : List RuntimeE)
    (text : String) (sampling_params : PyDict) (input_ids : List ℕ)
    (responses : ℕ → Resp) (fuel : ℕ) (o : SendOutcome)
    (h : async_send_request router uuidExp uuidReq rid runtimes text
        sampling_params input_ids responses fuel = .ok o) :
    o.selectCalls = 1 ∧
    (∀ a ∈ o.attempts,
      a = ((select_runtime_with_identifiers router uuidExp uuidReq runtimes
        text (dictSet sampling_params "request_id" (PyVal.str rid))
        input_ids).idx, rid)) ∧
    (∀ r, o.result = some r → r.hasError = false) := by
  simp only [async_send_request] at h
  cases hsel : (select_runtime_with_identifiers router uuidExp uuidReq
      runtimes text (dictSet sampling_params "request_id" (PyVal.str rid))
      input_ids).runtime with
  | error e => rw [hsel] at h; cases h
  | ok rt =>
    rw [hsel] at h
    simp only [Except.ok.injEq] at h
    subst h
    refine ⟨rfl, ?_, ?_⟩
    · exact (sendLoop_attempts _ rid responses fuel 0).1
    · exact (sendLoop_attempts _ rid responses fuel 0).2

theorem C1_retry_same_runtime_witness :
    sampleSendOutcome.selectCalls = 1 ∧
    (∀ a ∈ sampleSendOutcome.attempts,
      a = ((select_runtime_with_identifiers (fun _ _ _ _ => 0)
        (PyVal.str "e") (PyVal.str "u")
        [{ url := "http://a" }, { url := "http://b" }] "hello"
        (dictSet [] "request_id" (PyVal.str "rid-1")) []).idx, "rid-1")) ∧
    (∀ r, sampleSendOutcome.result = some r → r.hasError = false) :=
  C1_retry_same_runtime (fun _ _ _ _ => 0) (PyVal.str "e") (PyVal.str "u")
    "rid-1" [{ url := "http://a" }, { url := "http://b" }] "hello" [] []
    (fun k => if k = 0 then ({ hasError := true } : Resp)
      else { hasError := false }) 5 sampleSendOutcome rfl

end Preble
